import Mathlib

/-!
Verification development for the OpenExtremeManagement device-registry core
(`internal/api/server.go`).

The Go core is shallowly embedded:
- the in-memory maps `switches : map[int]*Switch` and `uploadTokens :
  map[string]int` become association lists with key-replacing insertion;
- wall-clock times (`time.Time`) become `Int` timestamps; the zero value
  `time.Time{}` is timestamp `0`, and `a.After(b)` is `a > b`;
- each HTTP interaction is driven by an explicit outcome value supplied by
  the environment (transport failure, or a status code with a body that the
  JSON decoder either parses or rejects);
- byte strings are `List Nat`; Go's `string(bytes)` conversion is the
  identity in this model;
- the gzip+tar layer (`compress/gzip`, `archive/tar` — external library
  code) is abstracted by an `ArchiveView`: what decoding the payload bytes
  yields, supplied alongside the bytes.

Every definition mirrors the corresponding Go function; theorems state and
settle the specification claims.
-/

set_option maxHeartbeats 1000000

namespace OpenExtreme

/-! ### Association lists standing in for Go maps -/

/-- Lookup in an association list (Go map read `m[k]`). -/
def alookup {α β : Type} [DecidableEq α] : List (α × β) → α → Option β
  | [], _ => none
  | (k, v) :: rest, k' => if k' = k then some v else alookup rest k'

/-- Key-replacing insertion (Go map write `m[k] = v`). -/
def aset {α β : Type} [DecidableEq α] : List (α × β) → α → β → List (α × β)
  | [], k, v => [(k, v)]
  | (k0, v0) :: rest, k, v =>
      if k0 = k then (k, v) :: rest else (k0, v0) :: aset rest k v

/-- Key removal (Go `delete(m, k)`). -/
def aerase {α β : Type} [DecidableEq α] : List (α × β) → α → List (α × β)
  | [], _ => []
  | (k0, v0) :: rest, k =>
      if k0 = k then aerase rest k else (k0, v0) :: aerase rest k

/-- The keys of an association list. -/
def akeys {α β : Type} (l : List (α × β)) : List α := l.map Prod.fst

/-- Decidable equality on `Except`, used to evaluate fallible results on
concrete inputs. -/
instance {ε α : Type} [DecidableEq ε] [DecidableEq α] :
    DecidableEq (Except ε α) := fun a b =>
  match a, b with
  | .error e1, .error e2 =>
    if h : e1 = e2 then .isTrue (by rw [h]) else .isFalse (by simp [h])
  | .error _, .ok _ => .isFalse (by simp)
  | .ok _, .error _ => .isFalse (by simp)
  | .ok a1, .ok a2 =>
    if h : a1 = a2 then .isTrue (by rw [h]) else .isFalse (by simp [h])



/-! ### Data model (`Switch`, `SystemInfo` from `internal/api/server.go`) -/

/-- Byte strings (`[]byte`); Go's `string(bytes)` conversion is the identity
in this model, so `string` payload fields are also `List Nat`. -/
abbrev Bytes := List Nat

/-- Go `SystemInfo`: the normalized per-device snapshot parsed from the device's
state endpoint. -/
structure SystemInfo where
  sysName : String
  sysDescription : String
  sysLocation : String
  sysContact : String
  modelName : String
  firmwareVersion : String
  nosType : String
  chassisId : String
  numPorts : Int
  isDigitalTwin : Bool
deriving DecidableEq, Repr

/-- Go `Switch`: one device record of the registry. `time.Time` values are `Int`
timestamps with `time.Time\x7b\x7d` being `0`. -/
structure Switch where
  id : Int
  name : String
  ipAddress : String
  port : Int
  useHTTPS : Bool
  username : String
  password : String
  status : String
  lastSync : Option Int
  systemInfo : Option SystemInfo
  authToken : String
  tokenExpiry : Int
  openAPISchema : Bytes
  schemaFetchedAt : Option Int
deriving DecidableEq, Repr

/-- The server's mutable state: the device map, the upload-token map, and the
id allocator (`Server.switches`, `Server.uploadTokens`, `Server.nextID`). -/
structure ServerState where
  switches : List (Int × Switch)
  uploadTokens : List (String × Int)
  nextID : Int
deriving DecidableEq, Repr

/-- The state a fresh server starts from (`NewServer`). -/
def initState : ServerState :=
  { switches := [], uploadTokens := [], nextID := 1 }

/-! ### Registry CRUD (`createSwitch`, `updateSwitch`, `deleteSwitch`) -/

/-- Body of `POST /switches` (`CreateSwitchRequest`); `useHTTPS` is a pointer
in Go, hence `Option Bool` (defaults to `true` when absent). -/
structure CreateSwitchRequest where
  ipAddress : String
  port : Int
  useHTTPS : Option Bool
  username : String
  password : String
deriving DecidableEq, Repr

/-- Body of `PUT /switches/:id` (`UpdateSwitchRequest`). -/
structure UpdateSwitchRequest where
  ipAddress : String
  port : Int
  useHTTPS : Option Bool
  username : String
  password : String
deriving DecidableEq, Repr

/-- Outcome of a handler acting on one device: the (possibly updated) record,
or the 404 "Switch not found" response. -/
inductive ApiResult (α : Type) where
  | ok (a : α)
  | notFound
deriving DecidableEq, Repr

/-- Handler `createSwitch` (server.go:342-374): allocate `nextID`, insert the record
with status `connecting` and temporary name `address:port`, bump `nextID`. -/
def createSwitch (st : ServerState) (req : CreateSwitchRequest) :
    ServerState × Switch :=
  let useHTTPS := req.useHTTPS.getD true
  let sw : Switch :=
    { id := st.nextID
      name := req.ipAddress ++ ":" ++ toString req.port
      ipAddress := req.ipAddress
      port := req.port
      useHTTPS := useHTTPS
      username := req.username
      password := req.password
      status := "connecting"
      lastSync := none
      systemInfo := none
      authToken := ""
      tokenExpiry := 0
      openAPISchema := []
      schemaFetchedAt := none }
  ({ st with switches := aset st.switches st.nextID sw, nextID := st.nextID + 1 }, sw)

/-- The field-patching body of `updateSwitch` (server.go:426-448): apply the
non-empty patch fields; a non-empty password also clears `AuthToken` and
`TokenExpiry`; then unconditionally rewrite `Name` to `address:port` and set
`Status` to `connecting`. -/
def applyUpdateFields (sw : Switch) (req : UpdateSwitchRequest) : Switch :=
  let sw1 := if req.ipAddress = "" then sw else { sw with ipAddress := req.ipAddress }
  let sw2 := if req.port = 0 then sw1 else { sw1 with port := req.port }
  let sw3 := match req.useHTTPS with
    | none => sw2
    | some b => { sw2 with useHTTPS := b }
  let sw4 := if req.username = "" then sw3 else { sw3 with username := req.username }
  let sw5 := if req.password = "" then sw4
    else { sw4 with password := req.password, authToken := "", tokenExpiry := 0 }
  { sw5 with name := sw5.ipAddress ++ ":" ++ toString sw5.port, status := "connecting" }

/-- Handler `updateSwitch` (server.go:404-455): 404 on an unknown id, otherwise patch
the record in place. -/
def updateSwitch (st : ServerState) (id : Int) (req : UpdateSwitchRequest) :
    ServerState × ApiResult Switch :=
  match alookup st.switches id with
  | none => (st, .notFound)
  | some sw =>
    let sw' := applyUpdateFields sw req
    ({ st with switches := aset st.switches id sw' }, .ok sw')

/-- Handler `deleteSwitch` (server.go:376-394): 404 on an unknown id, otherwise remove
the record. -/
def deleteSwitch (st : ServerState) (id : Int) : ServerState × ApiResult Unit :=
  match alookup st.switches id with
  | none => (st, .notFound)
  | some _ => ({ st with switches := aerase st.switches id }, .ok ())

/-! ### Session manager (`authenticateSwitch`) and remote state fetcher
(`fetchSystemInfo`). Each remote HTTP call is driven by an outcome value
supplied by the environment. -/

/-- Successfully decoded body of the device's `POST /auth/token` response. -/
structure AuthBody where
  token : String
  ttl : Int
deriving DecidableEq, Repr

/-- Environment outcome of the auth HTTP call: transport failure, or a status
code with a body the JSON decoder parses (`some`) or rejects (`none`). -/
inductive AuthOutcome where
  | transportFailure
  | httpResponse (statusCode : Nat) (body : Option AuthBody)
deriving DecidableEq, Repr

/-- Function `authenticateSwitch` (server.go:709-751): on transport failure or a
non-200 status or an undecodable body, return the error and leave the record
untouched; on success store the token and `now + ttl` seconds. -/
def authenticateSwitch (now : Int) (sw : Switch) (out : AuthOutcome) :
    Switch × Option String :=
  match out with
  | .transportFailure => (sw, some "connection failed")
  | .httpResponse code body =>
    if code ≠ 200 then (sw, some ("auth failed: status " ++ toString code))
    else match body with
      | none => (sw, some "invalid auth response")
      | some a =>
        ({ sw with authToken := a.token, tokenExpiry := now + a.ttl }, none)

/-- One card sub-record of the device's state response. -/
structure CardState where
  modelName : String
  firmwareVersion : String
  numPorts : Int
deriving DecidableEq, Repr

/-- Successfully decoded body of the device's `GET /state/system` response. -/
structure SystemStateBody where
  sysName : String
  sysDescription : String
  sysLocation : String
  sysContact : String
  nosType : String
  chassisId : String
  isDigitalTwin : Bool
  cards : List CardState
deriving DecidableEq, Repr

/-- Environment outcome of the state-fetch HTTP call. `raw` is the response
body as read for diagnostics; `parsed` is what the JSON decoder makes of it
(`none` = malformed). -/
inductive FetchOutcome where
  | transportFailure
  | response (statusCode : Nat) (raw : String) (parsed : Option SystemStateBody)
deriving DecidableEq, Repr

/-- The errors `fetchSystemInfo` can return. -/
inductive FetchError where
  | requestFailed
  | badStatus (statusCode : Nat) (body : String)
  | invalidResponse
deriving DecidableEq, Repr

/-- Build a `SystemInfo` from a decoded state body (server.go:793-807): copy
the identity fields; when `cards` is non-empty take the first card's model
name, firmware version and port count, else leave them zero-valued. -/
def systemInfoOfBody (stb : SystemStateBody) : SystemInfo :=
  let info : SystemInfo :=
    { sysName := stb.sysName
      sysDescription := stb.sysDescription
      sysLocation := stb.sysLocation
      sysContact := stb.sysContact
      modelName := ""
      firmwareVersion := ""
      nosType := stb.nosType
      chassisId := stb.chassisId
      numPorts := 0
      isDigitalTwin := stb.isDigitalTwin }
  match stb.cards with
  | [] => info
  | c :: _ =>
    { info with modelName := c.modelName, firmwareVersion := c.firmwareVersion,
                numPorts := c.numPorts }

/-- Function `fetchSystemInfo` (server.go:753-810): transport failure is an error; any
status other than 200 is an error carrying the status code and raw body; a 200
whose body fails to decode is an error; otherwise normalize the body. The
switch record is read only (URL, token) and never written. -/
def fetchSystemInfo (_sw : Switch) (out : FetchOutcome) :
    Except FetchError SystemInfo :=
  match out with
  | .transportFailure => .error .requestFailed
  | .response code raw parsed =>
    if code ≠ 200 then .error (.badStatus code raw)
    else match parsed with
      | none => .error .invalidResponse
      | some stb => .ok (systemInfoOfBody stb)

/-! ### Reconciliation (`syncSwitch`) -/

/-- Environment of one sync run: the wall-clock reads, the auth-call outcome
and the fetch-call outcome. `t0` is the expiry-check time, `t1` the time the
auth response is stored at, `t2` the commit time of a successful sync. -/
structure SyncEnv where
  t0 : Int
  authOut : AuthOutcome
  t1 : Int
  fetchOut : FetchOutcome
  t2 : Int
deriving DecidableEq, Repr

/-- The session-ensuring prefix of `syncSwitch` (server.go:674-682): when the
token is empty or `t0` is after its expiry, authenticate; otherwise keep the
existing session. -/
def ensureSession (t0 t1 : Int) (sw : Switch) (out : AuthOutcome) :
    Switch × Option String :=
  if sw.authToken = "" ∨ t0 > sw.tokenExpiry then authenticateSwitch t1 sw out
  else (sw, none)

/-- Function `syncSwitch` (server.go:670-707): ensure a session (failure ⇒ status
`auth_failed`), fetch the system info (failure ⇒ status `error`), and on
success set status `online`, `lastSync`, `systemInfo`, and the name from the
reported `sysName` when non-empty. -/
def syncSwitch (sw : Switch) (env : SyncEnv) : Switch :=
  let r := ensureSession env.t0 env.t1 sw env.authOut
  match r.2 with
  | some _ => { r.1 with status := "auth_failed" }
  | none =>
    match fetchSystemInfo r.1 env.fetchOut with
    | .error _ => { r.1 with status := "error" }
    | .ok info =>
      let sw2 :=
        { r.1 with
          status := "online"
          lastSync := some env.t2
          systemInfo := some info }
      if info.sysName = "" then sw2 else { sw2 with name := info.sysName }

/-- One sync run as it acts on the registry: the record the scheduler grabbed
is rewritten through `syncSwitch`; no other entry is involved. -/
def regSyncSwitch (st : ServerState) (id : Int) (env : SyncEnv) : ServerState :=
  match alookup st.switches id with
  | none => st
  | some sw => { st with switches := aset st.switches id (syncSwitch sw env) }

/-! ### Schema retrieval pipeline (`uploadSchema`, `extractOpenAPIFromGzip`) -/

/-- One tar archive entry: its header name and its byte content. -/
structure TarEntry where
  name : String
  content : Bytes
deriving DecidableEq, Repr

/-- What the gzip+tar library layer makes of a payload: the gzip reader
refuses it outright, or yields a sequence of entries, possibly ending in a tar
read error (`tailError`) instead of a clean EOF. -/
inductive ArchiveView where
  | badGzip
  | archive (entries : List TarEntry) (tailError : Bool)
deriving DecidableEq, Repr

/-- Go `strings.HasSuffix`: the suffix test on the underlying character
sequence. -/
def hasSuffix (s suffix : String) : Bool := List.isSuffixOf suffix.data s.data

/-- The `strings.HasSuffix` checks of server.go:989: the entry is the OpenAPI
document when its name ends in `openapi.yaml` or `openapi.yml`. -/
def isOpenAPIName (n : String) : Bool :=
  hasSuffix n "openapi.yaml" || hasSuffix n "openapi.yml"

/-- The scan loop of `extractOpenAPIFromGzip` (server.go:979-999): walk the
entries in order and return the first OpenAPI-named entry's content; reaching
the end is an error (tar failure or "not found in archive"). -/
def findOpenAPIEntry : List TarEntry → Bool → Except String Bytes
  | [], true => .error "failed to read tar"
  | [], false => .error "openapi.yaml not found in archive"
  | e :: rest, te =>
    if isOpenAPIName e.name then .ok e.content else findOpenAPIEntry rest te

/-- Function `extractOpenAPIFromGzip` (server.go:967-1000), over the abstracted gzip
layer. -/
def extractOpenAPIFromGzip : ArchiveView → Except String Bytes
  | .badGzip => .error "failed to create gzip reader"
  | .archive es te => findOpenAPIEntry es te

/-- The gzip sniff of server.go:941: more than two bytes and the first two are
`0x1f 0x8b`. -/
def isGzipMagic (bs : Bytes) : Bool :=
  match bs with
  | b0 :: b1 :: _ :: _ => b0 == 0x1f && b1 == 0x8b
  | _ => false

/-- How the inbound callback's payload arrives. `noFile`: `c.FormFile`
failed, so the raw request body is read (`none` = the read itself failed);
`file`: a multipart file was present (`none` = opening/reading it failed).
Each delivered payload carries its bytes together with the `ArchiveView` the
gzip+tar layer would produce from those bytes. -/
inductive UploadPayload where
  | noFile (body : Option (Bytes × ArchiveView))
  | file (content : Option (Bytes × ArchiveView))
deriving DecidableEq, Repr

/-- The HTTP-level outcome of `uploadSchema`. -/
inductive UploadResult where
  | ok
  | notFound
  | badRequest
  | serverError
deriving DecidableEq, Repr

/-- Write the schema onto the token's device if it still exists
(server.go:910-916 and 952-958): the `sw != nil` guard means a vanished
device is silently skipped. -/
def storeSchema (st : ServerState) (sid : Int) (schema : Bytes) (now : Int) :
    ServerState :=
  match alookup st.switches sid with
  | none => st
  | some sw =>
    let sw' := { sw with openAPISchema := schema, schemaFetchedAt := some now }
    { st with switches := aset st.switches sid sw' }

/-- Handler `uploadSchema` (server.go:888-964): reject an unknown token; on the
raw-body path store the bytes as-is; on the multipart path additionally try
gzip+tar extraction when the payload sniffs as gzip, falling back to the raw
bytes on any extraction error; both storing paths delete the token. -/
def uploadSchema (now : Int) (st : ServerState) (token : String)
    (p : UploadPayload) : ServerState × UploadResult :=
  match alookup st.uploadTokens token with
  | none => (st, .notFound)
  | some sid =>
    match p with
    | .noFile none => (st, .badRequest)
    | .noFile (some (bs, _view)) =>
      let st1 := storeSchema st sid bs now
      ({ st1 with uploadTokens := aerase st1.uploadTokens token }, .ok)
    | .file none => (st, .serverError)
    | .file (some (bs, view)) =>
      let schema :=
        if isGzipMagic bs then
          match extractOpenAPIFromGzip view with
          | .error _ => bs
          | .ok s => s
        else bs
      let st1 := storeSchema st sid schema now
      ({ st1 with uploadTokens := aerase st1.uploadTokens token }, .ok)

/-! ### Registry operation sequences (for the id-allocation invariant) -/

/-- One registry-mutating API call. -/
inductive RegOp where
  | create (req : CreateSwitchRequest)
  | update (id : Int) (req : UpdateSwitchRequest)
  | del (id : Int)
deriving DecidableEq, Repr

/-- Apply one operation; the second component is the id a create assigned. -/
def applyOp (st : ServerState) : RegOp → ServerState × Option Int
  | .create req =>
    let r := createSwitch st req
    (r.1, some r.2.id)
  | .update id req => ((updateSwitch st id req).1, none)
  | .del id => ((deleteSwitch st id).1, none)

/-- Run a sequence of operations; the second component is the trace of all
ids assigned by creates, in order. -/
def runOps (st : ServerState) : List RegOp → ServerState × List Int
  | [] => (st, [])
  | op :: rest =>
    let r := applyOp st op
    let r2 := runOps r.1 rest
    (r2.1, r.2.toList ++ r2.2)

/-- The registry invariant: every stored id is below the allocator and the
stored ids are pairwise distinct. -/
def RegInv (st : ServerState) : Prop :=
  (∀ k ∈ akeys st.switches, k < st.nextID) ∧ (akeys st.switches).Nodup

/-! ### Error taxonomy of the specification (for stating claim C6) -/

/-- The spec's device-facing error classes (§7). -/
inductive ErrClass where
  | connection
  | auth
  | protocol
deriving DecidableEq, Repr

/-- Modelled from the spec: §7's taxonomy applied to a state-fetch outcome —
`ConnectionError` is a transport-level failure, `AuthError` a rejection of the
credentials/token (401/403), `ProtocolError` an unexpected status code or a
malformed body. `none` means the outcome is not an error. Used only to state
which class of failure a sync run hit. -/
def fetchOutcomeClass : FetchOutcome → Option ErrClass
  | .transportFailure => some .connection
  | .response code _ parsed =>
    if code = 401 ∨ code = 403 then some .auth
    else if code = 200 then
      match parsed with
      | none => some .protocol
      | some _ => none
    else some .protocol

/-- The failure shapes named by the spec's session-manager contract: a
transport failure, or an HTTP response whose status is not in the 2xx
range. -/
def isTransportOrNon2xx : AuthOutcome → Bool
  | .transportFailure => true
  | .httpResponse code _ => decide (code < 200) || decide (300 ≤ code)

/-! ### Concrete fixtures for witnesses and counterexamples -/

/-- A device record fresh from `createSwitch` (status `connecting`, no
session). -/
def freshSwitch : Switch :=
  { id := 1
    name := "10.0.0.5:9443"
    ipAddress := "10.0.0.5"
    port := 9443
    useHTTPS := true
    username := "admin"
    password := "x"
    status := "connecting"
    lastSync := none
    systemInfo := none
    authToken := ""
    tokenExpiry := 0
    openAPISchema := []
    schemaFetchedAt := none }

/-- A device record that has already synced: status `online`, a reported name
and a still-valid session token. -/
def onlineSwitch : Switch :=
  { id := 1
    name := "sw1"
    ipAddress := "10.0.0.5"
    port := 443
    useHTTPS := true
    username := "admin"
    password := "x"
    status := "online"
    lastSync := some 50
    systemInfo := none
    authToken := "tok"
    tokenExpiry := 1000
    openAPISchema := []
    schemaFetchedAt := none }

/-- A well-formed state body with one card, as in the spec's scenario. -/
def sampleBody : SystemStateBody :=
  { sysName := "sw1"
    sysDescription := "desc"
    sysLocation := ""
    sysContact := ""
    nosType := "fabric"
    chassisId := "c1"
    isDigitalTwin := false
    cards := [{ modelName := "M1", firmwareVersion := "1.0", numPorts := 24 }] }

/-- A sync environment in which both the auth call and the state fetch
succeed. -/
def happyEnv : SyncEnv :=
  { t0 := 100
    authOut := .httpResponse 200 (some { token := "tk", ttl := 3600 })
    t1 := 100
    fetchOut := .response 200 "" (some sampleBody)
    t2 := 101 }

/-- A sync environment whose auth call fails at the transport level. -/
def authFailEnv : SyncEnv :=
  { t0 := 100
    authOut := .transportFailure
    t1 := 100
    fetchOut := .response 200 "" (some sampleBody)
    t2 := 101 }

/-- A sync environment whose state fetch fails at the transport level — the
spec taxonomy's `ConnectionError` — while the session needs no refresh. -/
def fetchFailEnv : SyncEnv :=
  { t0 := 10
    authOut := .transportFailure
    t1 := 10
    fetchOut := .transportFailure
    t2 := 11 }

/-- An all-empty update patch: no field is supplied. -/
def emptyPatch : UpdateSwitchRequest :=
  { ipAddress := "", port := 0, useHTTPS := none, username := "", password := "" }

/-- An update patch carrying only a new password. -/
def passwordPatch : UpdateSwitchRequest :=
  { ipAddress := "", port := 0, useHTTPS := none, username := "", password := "y" }

/-- A registry holding the already-online device under id 1. -/
def onlineState : ServerState :=
  { switches := [(1, onlineSwitch)], uploadTokens := [], nextID := 2 }

/-- A schema-carrying tar entry whose name ends in `openapi.yaml`. -/
def yamlEntry : TarEntry := { name := "config/openapi.yaml", content := [97, 98] }

/-- Payload bytes that sniff as gzip (first two bytes `0x1f 0x8b`, length
greater than two). -/
def gzBytes : Bytes := [0x1f, 0x8b, 0x08, 0x00]

/-- The archive view of `gzBytes`: one entry, `config/openapi.yaml`. -/
def yamlView : ArchiveView := .archive [yamlEntry] false

/-- A registry with the device under id 7 and a live upload token bound to
it. -/
def tokenState : ServerState :=
  { switches := [(7, { freshSwitch with id := 7 })]
    uploadTokens := [("7-1000", 7)]
    nextID := 8 }

/-- A registry with a live upload token whose device id 9 is no longer
present (the device was deleted after the token was issued). -/
def orphanTokenState : ServerState :=
  { switches := [(7, { freshSwitch with id := 7 })]
    uploadTokens := [("9-1000", 9)]
    nextID := 10 }

/-- A plain (non-gzip) payload. -/
def plainPayload : UploadPayload := .noFile (some ([104, 105], .badGzip))

/-- A creation request as in the spec's scenario. -/
def sampleCreateReq : CreateSwitchRequest :=
  { ipAddress := "10.0.0.5"
    port := 9443
    useHTTPS := some true
    username := "admin"
    password := "x" }

/-- Create two devices, delete the first, create a third: the freed id 1 must
not be handed out again. -/
def sampleOps : List RegOp :=
  [.create sampleCreateReq, .create sampleCreateReq, .del 1,
   .create sampleCreateReq]

/-! ## Theorems -/

/-! ### Association-list facts -/
theorem alookup_aset_self {α β : Type} [DecidableEq α]
    (l : List (α × β)) (k : α) (v : β) : alookup (aset l k v) k = some v := by
  induction l with
  | nil => simp [aset, alookup]
  | cons hd tl ih =>
    obtain ⟨k0, v0⟩ := hd
    by_cases h : k0 = k
    · simp [aset, h, alookup]
    · simp [aset, h, alookup, Ne.symm h, ih]

theorem alookup_aset_ne {α β : Type} [DecidableEq α]
    (l : List (α × β)) (k j : α) (v : β) (hne : j ≠ k) :
    alookup (aset l k v) j = alookup l j := by
  induction l with
  | nil => simp [aset, alookup, hne]
  | cons hd tl ih =>
    obtain ⟨k0, v0⟩ := hd
    by_cases h : k0 = k
    · subst h
      simp [aset, alookup, hne]
    · by_cases h2 : j = k0
      · simp [aset, h, alookup, h2]
      · simp [aset, h, alookup, h2, ih]

theorem alookup_aerase_self {α β : Type} [DecidableEq α]
    (l : List (α × β)) (k : α) : alookup (aerase l k) k = none := by
  induction l with
  | nil => simp [aerase, alookup]
  | cons hd tl ih =>
    obtain ⟨k0, v0⟩ := hd
    by_cases h : k0 = k
    · simp [aerase, h, ih]
    · simp [aerase, h, alookup, Ne.symm h, ih]

theorem alookup_aerase_ne {α β : Type} [DecidableEq α]
    (l : List (α × β)) (k j : α) (hne : j ≠ k) :
    alookup (aerase l k) j = alookup l j := by
  induction l with
  | nil => simp [aerase]
  | cons hd tl ih =>
    obtain ⟨k0, v0⟩ := hd
    by_cases h : k0 = k
    · subst h
      simp [aerase, alookup, hne, ih]
    · by_cases h2 : j = k0
      · simp [aerase, h, alookup, h2]
      · simp [aerase, h, alookup, h2, ih]

theorem akeys_aset {α β : Type} [DecidableEq α] (l : List (α × β)) (k : α) (v : β) :
    akeys (aset l k v) = if k ∈ akeys l then akeys l else akeys l ++ [k] := by
  induction l with
  | nil => simp [aset, akeys]
  | cons hd tl ih =>
    obtain ⟨k0, v0⟩ := hd
    by_cases h : k0 = k
    · subst h
      simp [aset, akeys]
    · simp only [aset, if_neg h, akeys, List.map_cons]
      simp only [akeys] at ih
      by_cases hm : k ∈ List.map Prod.fst tl
      · simp [hm, ih, Ne.symm h]
      · simp [hm, ih, Ne.symm h]

theorem akeys_aerase_sublist {α β : Type} [DecidableEq α] (l : List (α × β)) (k : α) :
    (akeys (aerase l k)).Sublist (akeys l) := by
  induction l with
  | nil => simp [aerase]
  | cons hd tl ih =>
    obtain ⟨k0, v0⟩ := hd
    by_cases h : k0 = k
    · simp only [aerase, if_pos h, akeys, List.map_cons]
      exact ih.trans (List.sublist_cons_self _ _)
    · simp only [aerase, if_neg h, akeys, List.map_cons]
      exact ih.cons₂ _

theorem alookup_mem_akeys {α β : Type} [DecidableEq α]
    (l : List (α × β)) (k : α) (v : β) (h : alookup l k = some v) : k ∈ akeys l := by
  induction l with
  | nil => simp [alookup] at h
  | cons hd tl ih =>
    obtain ⟨k0, v0⟩ := hd
    by_cases hk : k = k0
    · simp [akeys, hk]
    · simp only [alookup, if_neg hk] at h
      simp [akeys] at ih ⊢
      exact Or.inr (ih h)

theorem alookup_none_of_not_mem {α β : Type} [DecidableEq α]
    (l : List (α × β)) (k : α) (h : k ∉ akeys l) : alookup l k = none := by
  induction l with
  | nil => simp [alookup]
  | cons hd tl ih =>
    obtain ⟨k0, v0⟩ := hd
    simp only [akeys, List.map_cons, List.mem_cons, not_or] at h
    simp only [alookup, if_neg h.1]
    exact ih h.2

/-! ### Frame facts about the session manager -/

theorem authenticateSwitch_name (t : Int) (sw : Switch) (out : AuthOutcome) :
    ((authenticateSwitch t sw out).1).name = sw.name := by
  cases out with
  | transportFailure => rfl
  | httpResponse code body =>
    by_cases h : code = 200
    · subst h
      cases body <;> simp [authenticateSwitch]
    · simp [authenticateSwitch, h]

theorem ensureSession_name (t0 t1 : Int) (sw : Switch) (out : AuthOutcome) :
    ((ensureSession t0 t1 sw out).1).name = sw.name := by
  unfold ensureSession
  split
  · exact authenticateSwitch_name t1 sw out
  · rfl

/-! ### Claim C1 -/

/-- C1 (confirmed): whenever a sync run ensures a session (the session step
reports no error) and the remote state fetch and parse succeed, the device
ends with status `online`, its `lastSync` set to the sync's commit time, its
`systemInfo` replaced by the freshly parsed snapshot, and its name set to the
reported `sysName` when that is non-empty and left unchanged when it is
empty. -/
theorem syncSwitch_success_commits (sw : Switch) (env : SyncEnv) (info : SystemInfo)
    (hAuth : (ensureSession env.t0 env.t1 sw env.authOut).2 = none)
    (hFetch : fetchSystemInfo (ensureSession env.t0 env.t1 sw env.authOut).1
        env.fetchOut = .ok info) :
    (syncSwitch sw env).status = "online" ∧
    (syncSwitch sw env).lastSync = some env.t2 ∧
    (syncSwitch sw env).systemInfo = some info ∧
    (syncSwitch sw env).name =
      (if info.sysName = "" then sw.name else info.sysName) := by
  have hname := ensureSession_name env.t0 env.t1 sw env.authOut
  simp only [syncSwitch, hAuth, hFetch]
  by_cases h : info.sysName = "" <;> simp [h, hname]

/-- Witness for C1 at a freshly created device whose auth and fetch calls
both succeed with the sample body. -/
theorem syncSwitch_success_commits_witness :
    (syncSwitch freshSwitch happyEnv).status = "online" ∧
    (syncSwitch freshSwitch happyEnv).lastSync = some happyEnv.t2 ∧
    (syncSwitch freshSwitch happyEnv).systemInfo = some (systemInfoOfBody sampleBody) ∧
    (syncSwitch freshSwitch happyEnv).name =
      (if (systemInfoOfBody sampleBody).sysName = "" then freshSwitch.name
       else (systemInfoOfBody sampleBody).sysName) :=
  syncSwitch_success_commits freshSwitch happyEnv (systemInfoOfBody sampleBody) rfl rfl

/-! ### The update handler, characterized field by field -/

theorem applyUpdateFields_spec (sw : Switch) (req : UpdateSwitchRequest) :
    (applyUpdateFields sw req).status = "connecting" ∧
    (applyUpdateFields sw req).name =
      (applyUpdateFields sw req).ipAddress ++ ":" ++
        toString (applyUpdateFields sw req).port ∧
    (applyUpdateFields sw req).ipAddress =
      (if req.ipAddress = "" then sw.ipAddress else req.ipAddress) ∧
    (applyUpdateFields sw req).port = (if req.port = 0 then sw.port else req.port) ∧
    (applyUpdateFields sw req).useHTTPS = req.useHTTPS.getD sw.useHTTPS ∧
    (applyUpdateFields sw req).username =
      (if req.username = "" then sw.username else req.username) ∧
    (applyUpdateFields sw req).password =
      (if req.password = "" then sw.password else req.password) ∧
    (applyUpdateFields sw req).authToken =
      (if req.password = "" then sw.authToken else "") ∧
    (applyUpdateFields sw req).tokenExpiry =
      (if req.password = "" then sw.tokenExpiry else 0) ∧
    (applyUpdateFields sw req).id = sw.id ∧
    (applyUpdateFields sw req).lastSync = sw.lastSync ∧
    (applyUpdateFields sw req).systemInfo = sw.systemInfo ∧
    (applyUpdateFields sw req).openAPISchema = sw.openAPISchema ∧
    (applyUpdateFields sw req).schemaFetchedAt = sw.schemaFetchedAt := by
  unfold applyUpdateFields
  by_cases h1 : req.ipAddress = "" <;>
    by_cases h2 : req.port = 0 <;>
      cases hH : req.useHTTPS <;>
        by_cases h4 : req.username = "" <;>
          by_cases h5 : req.password = "" <;>
            simp [h1, h2, hH, h4, h5]

/-! ### Claim C2 -/

/-- C2 counterexample: the claim says update applies exactly the non-empty
fields of the patch, so an all-empty patch should leave the device record
unchanged. On the code, updating the online device `sw1` with the all-empty
patch still resets its status from `online` to `connecting` and overwrites its
name `sw1` with `10.0.0.5:443`. -/
theorem updateSwitch_not_field_exact :
    (updateSwitch onlineState 1 emptyPatch).2 =
      .ok (applyUpdateFields onlineSwitch emptyPatch) ∧
    (applyUpdateFields onlineSwitch emptyPatch).status = "connecting" ∧
    onlineSwitch.status = "online" ∧
    (applyUpdateFields onlineSwitch emptyPatch).name = "10.0.0.5:443" ∧
    onlineSwitch.name = "sw1" := by decide

/-- C2 amended: update on an absent id returns NotFound and changes nothing;
update on a present id applies the non-empty fields of the patch and — beyond
them — always resets status to `connecting` and rewrites the display name from
the (possibly updated) address and port; whenever the patch carries a
non-empty password it additionally clears `sessionToken` and `sessionExpiry`
together, and when it does not, both are preserved. -/
theorem updateSwitch_patch_semantics (st : ServerState) (id : Int)
    (req : UpdateSwitchRequest) :
    (alookup st.switches id = none → updateSwitch st id req = (st, .notFound)) ∧
    (∀ sw, alookup st.switches id = some sw →
      (updateSwitch st id req).2 = .ok (applyUpdateFields sw req) ∧
      alookup (updateSwitch st id req).1.switches id =
        some (applyUpdateFields sw req) ∧
      (req.password ≠ "" →
        (applyUpdateFields sw req).authToken = "" ∧
        (applyUpdateFields sw req).tokenExpiry = 0 ∧
        (applyUpdateFields sw req).status = "connecting") ∧
      (req.password = "" →
        (applyUpdateFields sw req).authToken = sw.authToken ∧
        (applyUpdateFields sw req).tokenExpiry = sw.tokenExpiry) ∧
      (applyUpdateFields sw req).ipAddress =
        (if req.ipAddress = "" then sw.ipAddress else req.ipAddress) ∧
      (applyUpdateFields sw req).port =
        (if req.port = 0 then sw.port else req.port) ∧
      (applyUpdateFields sw req).useHTTPS = req.useHTTPS.getD sw.useHTTPS ∧
      (applyUpdateFields sw req).username =
        (if req.username = "" then sw.username else req.username) ∧
      (applyUpdateFields sw req).password =
        (if req.password = "" then sw.password else req.password)) := by
  constructor
  · intro h
    simp [updateSwitch, h]
  · intro sw h
    have hs := applyUpdateFields_spec sw req
    obtain ⟨hst, hnm, hip, hpt, hhs, hun, hpw, hat, hte, -⟩ := hs
    refine ⟨?_, ?_, ?_, ?_, hip, hpt, hhs, hun, hpw⟩
    · simp [updateSwitch, h]
    · simp [updateSwitch, h, alookup_aset_self]
    · intro hp
      rw [if_neg hp] at hat hte
      exact ⟨hat, hte, hst⟩
    · intro hp
      rw [if_pos hp] at hat hte
      exact ⟨hat, hte⟩

/-- Witness for C2 (amended) at the online device: a password-only patch
clears the token state and resets the status; the absent id 5 is rejected. -/
theorem updateSwitch_patch_semantics_witness :
    ((updateSwitch onlineState 1 passwordPatch).2 =
        .ok (applyUpdateFields onlineSwitch passwordPatch) ∧
      (applyUpdateFields onlineSwitch passwordPatch).authToken = "" ∧
      (applyUpdateFields onlineSwitch passwordPatch).tokenExpiry = 0 ∧
      (applyUpdateFields onlineSwitch passwordPatch).status = "connecting") ∧
    updateSwitch onlineState 5 passwordPatch = (onlineState, .notFound) := by
  have h1 := ((updateSwitch_patch_semantics onlineState 1 passwordPatch).2
    onlineSwitch rfl)
  have h2 := (updateSwitch_patch_semantics onlineState 5 passwordPatch).1 rfl
  exact ⟨⟨h1.1, (h1.2.2.1 (by decide)).1, (h1.2.2.1 (by decide)).2.1,
    (h1.2.2.1 (by decide)).2.2⟩, h2⟩

/-! ### Claim C10 -/

/-- C10 (confirmed): every update on an existing device — even one whose
patch is entirely empty — resets the stored record's status to `connecting`
and overwrites its display name with `address:port` built from the (possibly
unchanged) address and port, discarding any name previously derived from the
device-reported system name; the session token and expiry are cleared exactly
when a new password is supplied and preserved otherwise. -/
theorem updateSwitch_always_resets (st : ServerState) (id : Int)
    (req : UpdateSwitchRequest) (sw : Switch)
    (h : alookup st.switches id = some sw) :
    alookup (updateSwitch st id req).1.switches id =
      some (applyUpdateFields sw req) ∧
    (applyUpdateFields sw req).status = "connecting" ∧
    (applyUpdateFields sw req).name =
      (applyUpdateFields sw req).ipAddress ++ ":" ++
        toString (applyUpdateFields sw req).port ∧
    (applyUpdateFields sw req).ipAddress =
      (if req.ipAddress = "" then sw.ipAddress else req.ipAddress) ∧
    (applyUpdateFields sw req).port =
      (if req.port = 0 then sw.port else req.port) ∧
    (req.password = "" →
      (applyUpdateFields sw req).authToken = sw.authToken ∧
      (applyUpdateFields sw req).tokenExpiry = sw.tokenExpiry) ∧
    (req.password ≠ "" →
      (applyUpdateFields sw req).authToken = "" ∧
      (applyUpdateFields sw req).tokenExpiry = 0) := by
  obtain ⟨hst, hnm, hip, hpt, -, -, -, hat, hte, -⟩ := applyUpdateFields_spec sw req
  refine ⟨?_, hst, hnm, hip, hpt, ?_, ?_⟩
  · simp [updateSwitch, h, alookup_aset_self]
  · intro hp
    rw [if_pos hp] at hat hte
    exact ⟨hat, hte⟩
  · intro hp
    rw [if_neg hp] at hat hte
    exact ⟨hat, hte⟩

/-- Witness for C10: the all-empty patch on the online device `sw1` still
lands it on status `connecting` with name `10.0.0.5:443`, keeping its session
token. -/
theorem updateSwitch_always_resets_witness :
    alookup (updateSwitch onlineState 1 emptyPatch).1.switches 1 =
      some (applyUpdateFields onlineSwitch emptyPatch) ∧
    (applyUpdateFields onlineSwitch emptyPatch).status = "connecting" ∧
    (applyUpdateFields onlineSwitch emptyPatch).name =
      (applyUpdateFields onlineSwitch emptyPatch).ipAddress ++ ":" ++
        toString (applyUpdateFields onlineSwitch emptyPatch).port ∧
    (applyUpdateFields onlineSwitch emptyPatch).authToken = onlineSwitch.authToken ∧
    (applyUpdateFields onlineSwitch emptyPatch).tokenExpiry =
      onlineSwitch.tokenExpiry := by
  have h := updateSwitch_always_resets onlineState 1 emptyPatch onlineSwitch rfl
  exact ⟨h.1, h.2.1, h.2.2.1, (h.2.2.2.2.2.1 rfl).1, (h.2.2.2.2.2.1 rfl).2⟩

/-! ### Claim C5 -/

theorem authenticateSwitch_failure_frame (t : Int) (sw : Switch)
    (out : AuthOutcome) (h : isTransportOrNon2xx out = true) :
    (authenticateSwitch t sw out).2.isSome ∧ (authenticateSwitch t sw out).1 = sw := by
  cases out with
  | transportFailure => simp [authenticateSwitch]
  | httpResponse code body =>
    simp only [isTransportOrNon2xx, Bool.or_eq_true, decide_eq_true_eq] at h
    have hne : code ≠ 200 := by omega
    simp [authenticateSwitch, hne]

/-- C5 (confirmed): when the device's auth endpoint must be consulted (empty
token or past expiry) and the call fails by transport failure or a non-2xx
response, the session-ensure step reports the error and the device's
`sessionToken` and `sessionExpiry` are exactly what they were before the
call — a still-valid prior token is not cleared. -/
theorem ensureSession_failure_preserves_token (t0 t1 : Int) (sw : Switch)
    (out : AuthOutcome) (htrig : sw.authToken = "" ∨ t0 > sw.tokenExpiry)
    (hfail : isTransportOrNon2xx out = true) :
    (ensureSession t0 t1 sw out).2.isSome ∧
    (ensureSession t0 t1 sw out).1.authToken = sw.authToken ∧
    (ensureSession t0 t1 sw out).1.tokenExpiry = sw.tokenExpiry := by
  have hbody := authenticateSwitch_failure_frame t1 sw out hfail
  unfold ensureSession
  rw [if_pos htrig]
  exact ⟨hbody.1, by rw [hbody.2], by rw [hbody.2]⟩

/-- Witness for C5: the device with an expired session keeps its old token
when the auth endpoint answers 401. -/
theorem ensureSession_failure_preserves_token_witness :
    (ensureSession 2000 2000 onlineSwitch (.httpResponse 401 none)).2.isSome ∧
    (ensureSession 2000 2000 onlineSwitch (.httpResponse 401 none)).1.authToken =
      onlineSwitch.authToken ∧
    (ensureSession 2000 2000 onlineSwitch (.httpResponse 401 none)).1.tokenExpiry =
      onlineSwitch.tokenExpiry :=
  ensureSession_failure_preserves_token 2000 2000 onlineSwitch
    (.httpResponse 401 none) (Or.inr (by decide)) (by decide)

/-! ### Claim C6 -/

/-- C6 counterexample: the claim maps every `ConnectionError` during a sync
to status `auth_failed`. On the code, a transport-level failure — the spec
taxonomy's `ConnectionError` — that hits the state-fetch step of a device
whose session needs no refresh leaves the device with status `error`, not
`auth_failed`: the code maps failures by step, not by error class. -/
theorem syncSwitch_fetch_connection_error_is_error :
    fetchOutcomeClass fetchFailEnv.fetchOut = some ErrClass.connection ∧
    (syncSwitch onlineSwitch fetchFailEnv).status = "error" ∧
    (syncSwitch onlineSwitch fetchFailEnv).status ≠ "auth_failed" := by decide

/-- C6 amended: any failure of the session-ensure step leaves the device with
status `auth_failed`; a session-ensure success followed by any failure of the
state fetch/parse leaves it with status `error`; in all cases the sync
routine returns normally (it is a total function of the one device) and, at
registry level, leaves every other device's record untouched. -/
theorem syncSwitch_failure_status_by_step (sw : Switch) (env : SyncEnv) :
    ((ensureSession env.t0 env.t1 sw env.authOut).2.isSome →
      (syncSwitch sw env).status = "auth_failed") ∧
    ((ensureSession env.t0 env.t1 sw env.authOut).2 = none →
      ∀ e : FetchError,
        fetchSystemInfo (ensureSession env.t0 env.t1 sw env.authOut).1
          env.fetchOut = .error e →
        (syncSwitch sw env).status = "error") ∧
    (∀ st : ServerState, ∀ id j : Int, j ≠ id →
      alookup (regSyncSwitch st id env).switches j = alookup st.switches j) := by
  refine ⟨?_, ?_, ?_⟩
  · intro h
    obtain ⟨e, he⟩ := Option.isSome_iff_exists.mp h
    simp [syncSwitch, he]
  · intro h e he
    simp [syncSwitch, h, he]
  · intro st id j hne
    unfold regSyncSwitch
    cases halt : alookup st.switches id with
    | none => rfl
    | some sw0 => simp [alookup_aset_ne _ _ _ _ hne]

/-- Witness for C6 (amended): an auth transport failure lands the fresh
device on `auth_failed`; a fetch transport failure lands the online device on
`error`; the sync of id 1 leaves the record of id 7 alone. -/
theorem syncSwitch_failure_status_by_step_witness :
    (syncSwitch freshSwitch authFailEnv).status = "auth_failed" ∧
    (syncSwitch onlineSwitch fetchFailEnv).status = "error" ∧
    alookup (regSyncSwitch tokenState 1 fetchFailEnv).switches 7 =
      alookup tokenState.switches 7 :=
  ⟨(syncSwitch_failure_status_by_step freshSwitch authFailEnv).1 rfl,
   (syncSwitch_failure_status_by_step onlineSwitch fetchFailEnv).2.1 rfl
     FetchError.requestFailed rfl,
   (syncSwitch_failure_status_by_step onlineSwitch fetchFailEnv).2.2 tokenState 1 7
     (by decide)⟩

/-! ### Claim C7 -/

/-- C7 counterexample: the claim says the fetch succeeds for every 2xx
response with a well-formed body. On the code, a 201 response carrying the
perfectly well-formed sample body is rejected: `fetchSystemInfo` accepts
status 200 only, and any other status — 2xx included — yields the
status-carrying error. -/
theorem fetchSystemInfo_rejects_201 :
    fetchSystemInfo onlineSwitch (.response 201 "" (some sampleBody)) =
      .error (.badStatus 201 "") := rfl

/-- C7 amended: `fetchSystemInfo` returns a `FetchError` carrying the
response's status code and body for every non-200 response (2xx statuses
other than 200 included), returns a `FetchError` rather than crashing for a
200 response with a malformed body, and succeeds exactly for 200 responses
with a well-formed body, taking the first card's model name, firmware version
and port count when the cards array is non-empty. -/
theorem fetchSystemInfo_behavior (sw : Switch) (out : FetchOutcome) :
    (out = .transportFailure → fetchSystemInfo sw out = .error .requestFailed) ∧
    (∀ code raw parsed, out = .response code raw parsed → code ≠ 200 →
      fetchSystemInfo sw out = .error (.badStatus code raw)) ∧
    (∀ raw, out = .response 200 raw none →
      fetchSystemInfo sw out = .error .invalidResponse) ∧
    (∀ raw stb, out = .response 200 raw (some stb) →
      fetchSystemInfo sw out = .ok (systemInfoOfBody stb) ∧
      (systemInfoOfBody stb).sysName = stb.sysName ∧
      (∀ c cs, stb.cards = c :: cs →
        (systemInfoOfBody stb).modelName = c.modelName ∧
        (systemInfoOfBody stb).firmwareVersion = c.firmwareVersion ∧
        (systemInfoOfBody stb).numPorts = c.numPorts)) := by
  refine ⟨?_, ?_, ?_, ?_⟩
  · intro h
    subst h
    rfl
  · intro code raw parsed h hne
    subst h
    simp [fetchSystemInfo, hne]
  · intro raw h
    subst h
    rfl
  · intro raw stb h
    subst h
    refine ⟨rfl, ?_, ?_⟩
    · unfold systemInfoOfBody
      cases stb.cards <;> rfl
    · intro c cs hc
      unfold systemInfoOfBody
      rw [hc]
      exact ⟨rfl, rfl, rfl⟩

/-- Witness for C7 (amended): a 404 carries its status and body; a malformed
200 body errors; the well-formed sample body succeeds with the first card's
facts. -/
theorem fetchSystemInfo_behavior_witness :
    fetchSystemInfo onlineSwitch (.response 404 "nope" none) =
      .error (.badStatus 404 "nope") ∧
    fetchSystemInfo onlineSwitch (.response 200 "garbage" none) =
      .error .invalidResponse ∧
    fetchSystemInfo onlineSwitch (.response 200 "" (some sampleBody)) =
      .ok (systemInfoOfBody sampleBody) ∧
    (systemInfoOfBody sampleBody).modelName = "M1" ∧
    (systemInfoOfBody sampleBody).numPorts = 24 := by
  have h2 := (fetchSystemInfo_behavior onlineSwitch
    (.response 404 "nope" none)).2.1 404 "nope" none rfl (by decide)
  have h3 := (fetchSystemInfo_behavior onlineSwitch
    (.response 200 "garbage" none)).2.2.1 "garbage" rfl
  have h4 := (fetchSystemInfo_behavior onlineSwitch
    (.response 200 "" (some sampleBody))).2.2.2 "" sampleBody rfl
  have h5 := h4.2.2 { modelName := "M1", firmwareVersion := "1.0", numPorts := 24 }
    [] rfl
  exact ⟨h2, h3, h4.1, h5.1, h5.2.2⟩

/-! ### Facts about the schema store step -/

theorem storeSchema_uploadTokens (st : ServerState) (sid : Int) (schema : Bytes)
    (now : Int) : (storeSchema st sid schema now).uploadTokens = st.uploadTokens := by
  unfold storeSchema
  cases alookup st.switches sid <;> rfl

theorem storeSchema_of_none (st : ServerState) (sid : Int) (schema : Bytes)
    (now : Int) (h : alookup st.switches sid = none) :
    storeSchema st sid schema now = st := by
  unfold storeSchema
  rw [h]

theorem storeSchema_lookup_self (st : ServerState) (sid : Int) (schema : Bytes)
    (now : Int) (sw : Switch) (h : alookup st.switches sid = some sw) :
    alookup (storeSchema st sid schema now).switches sid =
      some { sw with openAPISchema := schema, schemaFetchedAt := some now } := by
  unfold storeSchema
  rw [h]
  exact alookup_aset_self st.switches sid _

/-! ### Claim C3 -/

/-- C3 counterexample: the claim says gzip-magic payloads are unpacked
whether delivered as a raw request body or as a multipart file. On the code,
the raw-body path never looks at the payload's bytes: the gzip-magic payload
`gzBytes`, whose archive contains `config/openapi.yaml` with content
`[97, 98]`, is stored verbatim as the schema when it arrives as a raw body,
not as the extracted entry content the claim requires. -/
theorem uploadSchema_raw_body_skips_extraction :
    isGzipMagic gzBytes = true ∧
    extractOpenAPIFromGzip yamlView = .ok yamlEntry.content ∧
    (alookup (uploadSchema 100 tokenState "7-1000"
        (.noFile (some (gzBytes, yamlView)))).1.switches 7).map
      Switch.openAPISchema = some gzBytes ∧
    gzBytes ≠ yamlEntry.content := by decide

/-- C3 amended: for multipart-file payloads longer than two bytes whose first
two bytes are the gzip magic number, `uploadSchema` stores the content of the
first archive entry named `*openapi.yaml`/`*openapi.yml` when extraction
succeeds and falls back to the raw payload bytes when it fails, accepting the
upload either way; payloads delivered as a raw request body are always stored
verbatim, without any extraction attempt. -/
theorem uploadSchema_extraction_rules (now : Int) (st : ServerState)
    (token : String) (sid : Int) (sw : Switch) (bs : Bytes) (view : ArchiveView)
    (htok : alookup st.uploadTokens token = some sid)
    (hsw : alookup st.switches sid = some sw) :
    (∀ content, isGzipMagic bs = true → extractOpenAPIFromGzip view = .ok content →
      (uploadSchema now st token (.file (some (bs, view)))).2 = .ok ∧
      alookup (uploadSchema now st token (.file (some (bs, view)))).1.switches sid =
        some { sw with openAPISchema := content, schemaFetchedAt := some now }) ∧
    (∀ e, isGzipMagic bs = true → extractOpenAPIFromGzip view = .error e →
      (uploadSchema now st token (.file (some (bs, view)))).2 = .ok ∧
      alookup (uploadSchema now st token (.file (some (bs, view)))).1.switches sid =
        some { sw with openAPISchema := bs, schemaFetchedAt := some now }) ∧
    (isGzipMagic bs = false →
      (uploadSchema now st token (.file (some (bs, view)))).2 = .ok ∧
      alookup (uploadSchema now st token (.file (some (bs, view)))).1.switches sid =
        some { sw with openAPISchema := bs, schemaFetchedAt := some now }) ∧
    ((uploadSchema now st token (.noFile (some (bs, view)))).2 = .ok ∧
      alookup (uploadSchema now st token (.noFile (some (bs, view)))).1.switches sid =
        some { sw with openAPISchema := bs, schemaFetchedAt := some now }) := by
  refine ⟨?_, ?_, ?_, ?_⟩
  · intro content hgz hex
    simp [uploadSchema, htok, hgz, hex, storeSchema_lookup_self st sid content now sw hsw]
  · intro e hgz hex
    simp [uploadSchema, htok, hgz, hex, storeSchema_lookup_self st sid bs now sw hsw]
  · intro hgz
    simp [uploadSchema, htok, hgz, storeSchema_lookup_self st sid bs now sw hsw]
  · simp [uploadSchema, htok, storeSchema_lookup_self st sid bs now sw hsw]

/-- Witness for C3 (amended): the multipart delivery of `gzBytes` stores the
extracted `config/openapi.yaml` content `[97, 98]`; the raw-body delivery
stores `gzBytes` verbatim. -/
theorem uploadSchema_extraction_rules_witness :
    ((uploadSchema 100 tokenState "7-1000" (.file (some (gzBytes, yamlView)))).2 =
        .ok ∧
      alookup (uploadSchema 100 tokenState "7-1000"
          (.file (some (gzBytes, yamlView)))).1.switches 7 =
        some { { freshSwitch with id := 7 } with
               openAPISchema := yamlEntry.content, schemaFetchedAt := some 100 }) ∧
    ((uploadSchema 100 tokenState "7-1000" (.noFile (some (gzBytes, yamlView)))).2 =
        .ok ∧
      alookup (uploadSchema 100 tokenState "7-1000"
          (.noFile (some (gzBytes, yamlView)))).1.switches 7 =
        some { { freshSwitch with id := 7 } with
               openAPISchema := gzBytes, schemaFetchedAt := some 100 }) := by
  have h := uploadSchema_extraction_rules 100 tokenState "7-1000" 7
    { freshSwitch with id := 7 } gzBytes yamlView rfl rfl
  exact ⟨h.1 yamlEntry.content (by decide) (by decide), h.2.2.2⟩

/-! ### Claim C4 -/

theorem uploadSchema_unknown_token (now : Int) (st : ServerState) (token : String)
    (p : UploadPayload) (h : alookup st.uploadTokens token = none) :
    uploadSchema now st token p = (st, .notFound) := by
  simp [uploadSchema, h]

theorem uploadSchema_ok_deletes_token (now : Int) (st st' : ServerState)
    (token : String) (p : UploadPayload)
    (h : uploadSchema now st token p = (st', .ok)) :
    alookup st'.uploadTokens token = none := by
  cases htok : alookup st.uploadTokens token with
  | none =>
    rw [uploadSchema_unknown_token now st token p htok] at h
    exact absurd (congrArg Prod.snd h) (by simp)
  | some sid =>
    cases p with
    | noFile body =>
      cases body with
      | none => simp [uploadSchema, htok] at h
      | some pc =>
        obtain ⟨bs, view⟩ := pc
        have heq : (uploadSchema now st token (.noFile (some (bs, view)))).1 = st' :=
          congrArg Prod.fst h
        rw [← heq]
        simp [uploadSchema, htok, storeSchema_uploadTokens, alookup_aerase_self]
    | file content =>
      cases content with
      | none => simp [uploadSchema, htok] at h
      | some pc =>
        obtain ⟨bs, view⟩ := pc
        have heq : (uploadSchema now st token (.file (some (bs, view)))).1 = st' :=
          congrArg Prod.fst h
        rw [← heq]
        simp [uploadSchema, htok, storeSchema_uploadTokens, alookup_aerase_self]

/-- C4 (confirmed): a `receiveUpload` call that successfully stores a payload
deletes the token from the token table, so every immediately subsequent call
with the same token — and any call with a token that is not registered — is
rejected as not-found/expired while the whole server state, device records
included, stays exactly as it was. -/
theorem uploadToken_single_use (now now2 : Int) (st st' : ServerState)
    (token : String) (p p2 : UploadPayload) :
    (uploadSchema now st token p = (st', .ok) →
      alookup st'.uploadTokens token = none ∧
      uploadSchema now2 st' token p2 = (st', .notFound)) ∧
    (alookup st.uploadTokens token = none →
      uploadSchema now st token p = (st, .notFound)) := by
  constructor
  · intro h
    have hdel := uploadSchema_ok_deletes_token now st st' token p h
    exact ⟨hdel, uploadSchema_unknown_token now2 st' token p2 hdel⟩
  · exact uploadSchema_unknown_token now st token p

/-- Witness for C4: a first upload against the live token succeeds and a
replay of the very same call is rejected without touching the state; an
unregistered token is rejected outright. -/
theorem uploadToken_single_use_witness :
    (alookup (uploadSchema 100 tokenState "7-1000" plainPayload).1.uploadTokens
        "7-1000" = none ∧
      uploadSchema 101 (uploadSchema 100 tokenState "7-1000" plainPayload).1
          "7-1000" plainPayload =
        ((uploadSchema 100 tokenState "7-1000" plainPayload).1, .notFound)) ∧
    uploadSchema 100 initState "nope" plainPayload = (initState, .notFound) :=
  ⟨(uploadToken_single_use 100 101 tokenState
      (uploadSchema 100 tokenState "7-1000" plainPayload).1 "7-1000" plainPayload
      plainPayload).1 rfl,
   (uploadToken_single_use 100 100 initState initState "nope" plainPayload
      plainPayload).2 rfl⟩

/-! ### Claim C9 -/

/-- C9 (confirmed): a registered token whose bound device id is no longer in
the registry still leads to a success response on either delivery path, and
the only state change is the deletion of the token — no device record is
created or modified (the `switches` component is untouched). -/
theorem uploadSchema_orphan_token (now : Int) (st : ServerState) (token : String)
    (sid : Int) (pc : Bytes × ArchiveView)
    (htok : alookup st.uploadTokens token = some sid)
    (hsw : alookup st.switches sid = none) :
    uploadSchema now st token (.noFile (some pc)) =
      ({ st with uploadTokens := aerase st.uploadTokens token }, .ok) ∧
    uploadSchema now st token (.file (some pc)) =
      ({ st with uploadTokens := aerase st.uploadTokens token }, .ok) := by
  obtain ⟨bs, view⟩ := pc
  constructor
  · simp [uploadSchema, htok, storeSchema_of_none st sid bs now hsw]
  · by_cases hgz : isGzipMagic bs
    · cases hex : extractOpenAPIFromGzip view with
      | ok c =>
        simp [uploadSchema, htok, hgz, hex, storeSchema_of_none st sid c now hsw]
      | error e =>
        simp [uploadSchema, htok, hgz, hex, storeSchema_of_none st sid bs now hsw]
    · simp only [Bool.not_eq_true] at hgz
      simp [uploadSchema, htok, hgz, storeSchema_of_none st sid bs now hsw]

/-- Witness for C9: the token `9-1000` is bound to the deleted device id 9;
both delivery paths answer ok and only remove the token. -/
theorem uploadSchema_orphan_token_witness :
    uploadSchema 100 orphanTokenState "9-1000" (.noFile (some ([104], .badGzip))) =
      ({ orphanTokenState with
         uploadTokens := aerase orphanTokenState.uploadTokens "9-1000" }, .ok) ∧
    uploadSchema 100 orphanTokenState "9-1000" (.file (some ([104], .badGzip))) =
      ({ orphanTokenState with
         uploadTokens := aerase orphanTokenState.uploadTokens "9-1000" }, .ok) :=
  uploadSchema_orphan_token 100 orphanTokenState "9-1000" 9 ([104], .badGzip)
    rfl rfl

/-! ### Claim C8 -/

theorem applyOp_preserves (st : ServerState) (op : RegOp) (hInv : RegInv st) :
    RegInv (applyOp st op).1 ∧
    st.nextID ≤ (applyOp st op).1.nextID ∧
    (∀ i ∈ (applyOp st op).2, st.nextID ≤ i ∧ i < (applyOp st op).1.nextID) := by
  obtain ⟨hbound, hnodup⟩ := hInv
  cases op with
  | create req =>
    have hfresh : st.nextID ∉ akeys st.switches := fun hmem =>
      absurd (hbound _ hmem) (lt_irrefl _)
    have hkeys : akeys (applyOp st (.create req)).1.switches =
        akeys st.switches ++ [st.nextID] := by
      show akeys (aset st.switches st.nextID _) = _
      rw [akeys_aset, if_neg hfresh]
    refine ⟨⟨?_, ?_⟩, ?_, ?_⟩
    · intro k hk
      rw [hkeys] at hk
      show k < st.nextID + 1
      rcases List.mem_append.mp hk with h | h
      · exact lt_trans (hbound _ h) (lt_add_one _)
      · simp at h
        omega
    · rw [hkeys]
      simp [List.nodup_append, hnodup, hfresh]
    · show st.nextID ≤ st.nextID + 1
      omega
    · intro i hi
      show st.nextID ≤ i ∧ i < st.nextID + 1
      have : st.nextID = i := by
        simpa [applyOp, createSwitch] using hi
      omega
  | update id req =>
    cases hlk : alookup st.switches id with
    | none =>
      have : (applyOp st (.update id req)).1 = st := by
        simp [applyOp, updateSwitch, hlk]
      rw [this]
      exact ⟨⟨hbound, hnodup⟩, le_refl _, by simp [applyOp]⟩
    | some sw =>
      have hmem : id ∈ akeys st.switches := alookup_mem_akeys _ _ _ hlk
      have hsw1 : (applyOp st (.update id req)).1.switches =
          aset st.switches id (applyUpdateFields sw req) := by
        simp [applyOp, updateSwitch, hlk]
      have hkeys : akeys (applyOp st (.update id req)).1.switches =
          akeys st.switches := by
        rw [hsw1, akeys_aset, if_pos hmem]
      have hnid : (applyOp st (.update id req)).1.nextID = st.nextID := by
        simp [applyOp, updateSwitch, hlk]
      refine ⟨⟨?_, ?_⟩, ?_, ?_⟩
      · intro k hk
        rw [hkeys] at hk
        rw [hnid]
        exact hbound _ hk
      · rw [hkeys]
        exact hnodup
      · rw [hnid]
      · simp [applyOp]
  | del id =>
    cases hlk : alookup st.switches id with
    | none =>
      have : (applyOp st (.del id)).1 = st := by
        simp [applyOp, deleteSwitch, hlk]
      rw [this]
      exact ⟨⟨hbound, hnodup⟩, le_refl _, by simp [applyOp]⟩
    | some sw =>
      have hsw1 : (applyOp st (.del id)).1.switches = aerase st.switches id := by
        simp [applyOp, deleteSwitch, hlk]
      have hsub : (akeys (applyOp st (.del id)).1.switches).Sublist
          (akeys st.switches) := by
        rw [hsw1]
        exact akeys_aerase_sublist _ _
      have hnid : (applyOp st (.del id)).1.nextID = st.nextID := by
        simp [applyOp, deleteSwitch, hlk]
      refine ⟨⟨?_, hnodup.sublist hsub⟩, ?_, ?_⟩
      · intro k hk
        rw [hnid]
        exact hbound _ (hsub.subset hk)
      · rw [hnid]
      · simp [applyOp]

theorem runOps_preserves (ops : List RegOp) (st : ServerState) (hInv : RegInv st) :
    RegInv (runOps st ops).1 ∧
    st.nextID ≤ (runOps st ops).1.nextID ∧
    (∀ i ∈ (runOps st ops).2, st.nextID ≤ i ∧ i < (runOps st ops).1.nextID) ∧
    (runOps st ops).2.Pairwise (· < ·) := by
  induction ops generalizing st with
  | nil => simpa [runOps] using hInv
  | cons op rest ih =>
    obtain ⟨hInv1, hle1, hids1⟩ := applyOp_preserves st op hInv
    obtain ⟨hInv2, hle2, hids2, hpw2⟩ := ih (applyOp st op).1 hInv1
    have hfst : (runOps st (op :: rest)).1 = (runOps (applyOp st op).1 rest).1 := rfl
    have hsnd : (runOps st (op :: rest)).2 =
        (applyOp st op).2.toList ++ (runOps (applyOp st op).1 rest).2 := rfl
    refine ⟨by rw [hfst]; exact hInv2, by rw [hfst]; exact le_trans hle1 hle2, ?_, ?_⟩
    · intro i hi
      rw [hsnd] at hi
      rw [hfst]
      rcases List.mem_append.mp hi with h | h
      · have hmem : i ∈ (applyOp st op).2 := by
          cases hv : (applyOp st op).2 with
          | none => rw [hv] at h; simp at h
          | some j => rw [hv] at h; simp at h; simp [hv, h]
        obtain ⟨hge, hlt⟩ := hids1 i hmem
        exact ⟨hge, lt_of_lt_of_le hlt hle2⟩
      · obtain ⟨hge, hlt⟩ := hids2 i h
        exact ⟨le_trans hle1 hge, hlt⟩
    · rw [hsnd]
      rw [List.pairwise_append]
      refine ⟨?_, hpw2, ?_⟩
      · cases (applyOp st op).2 <;> simp
      · intro a ha b hb
        have hmem : a ∈ (applyOp st op).2 := by
          cases hv : (applyOp st op).2 with
          | none => rw [hv] at ha; simp at ha
          | some j => rw [hv] at ha; simp at ha; simp [hv, ha]
        have hlt := (hids1 a hmem).2
        have hge := (hids2 b hb).1
        omega

/-- C8 (confirmed): along every sequence of create/update/delete operations
started from the fresh server, the registry's device ids stay pairwise
distinct, and the trace of ids handed out by the creates is strictly
increasing — so each create's id exceeds every previously assigned id, and an
id freed by a delete (which still sits earlier in the trace) can never be
assigned again; every live id stays below the allocator `nextID`. -/
theorem registry_id_allocation (ops : List RegOp) :
    (akeys (runOps initState ops).1.switches).Nodup ∧
    (runOps initState ops).2.Pairwise (· < ·) ∧
    (∀ k ∈ akeys (runOps initState ops).1.switches,
      k < (runOps initState ops).1.nextID) := by
  have hInit : RegInv initState := by
    constructor
    · intro k hk
      simp [initState, akeys] at hk
    · simp [initState, akeys]
  have h := runOps_preserves ops initState hInit
  exact ⟨h.1.2, h.2.2.2, h.1.1⟩

/-- Witness for C8: after create, create, delete 1, create, the assigned-id
trace is the strictly increasing `[1, 2, 3]` — the freed id 1 was not reused —
and the surviving id 2 sits below the allocator. -/
theorem registry_id_allocation_witness :
    (runOps initState sampleOps).2 = [1, 2, 3] ∧
    (runOps initState sampleOps).2.Pairwise (· < ·) ∧
    2 < (runOps initState sampleOps).1.nextID :=
  ⟨by decide, (registry_id_allocation sampleOps).2.1,
   (registry_id_allocation sampleOps).2.2 2 (by decide)⟩

end OpenExtreme
